import Mathlib

/-!
Verification of the static-db sync core (DefaultSyncService)

Shallow embedding of `src/core/sync.ts` (`DefaultSyncService`), the data
model of `src/core/types.ts` / `src/core/interfaces.ts`, and the error
taxonomy of `src/core/errors.ts`.

Modelling choices:
* The two ports (`RemoteDatabase`, `LocalDatabase`) are modelled by an
  oracle environment `Env`: the result of the `n`-th call of each port
  operation is a value of the environment.  A `World` threads the call
  counters and a trace of the effects the orchestrator performed
  (push calls with their arguments, save calls with their arguments,
  delays, clock reads).
* JavaScript numbers used by the service (`maxRetries`, `retryDelay`,
  `Date.now()`) are modelled as `Nat`; the `x || default` idiom of the
  constructor is modelled by `jsOrNat`, which maps `0` (falsy) and
  `none` (missing) to the default.
* `await` / promise rejection is modelled by `Except DBError`.
  `try`/`catch` becomes a `match` on the `Except` value.
* Schemas and records are opaque to the orchestrator (it only copies
  them and reads `.length`), so the embedding is parametric in their
  types `σ` and `ρ`.
* `debugLog` only prints, but its argument object is always evaluated
  at the call site, so the `Date.now()` reads inside those argument
  objects are kept as clock ticks.
-/

/-- Errors of `src/core/errors.ts` relevant to the sync service, flattened
to a sum: `outOfDate` is `OutOfDateError`; `remote` stands for the other
`RemoteDatabaseError` subclasses (network, auth, ...); `localDb` stands
for `LocalDatabaseError`.  All carry their `message`. -/
inductive DBError where
  | outOfDate (message : String)
  | remote (message : String)
  | localDb (message : String)
deriving DecidableEq

/-- The `message` field of a modelled error. -/
def DBError.message : DBError → String
  | .outOfDate m => m
  | .remote m => m
  | .localDb m => m

/-- Model of `isErrorOfType(error, OutOfDateError)` from `src/core/errors.ts`
(an `instanceof` check). -/
def isErrorOfTypeOutOfDate : DBError → Bool
  | .outOfDate _ => true
  | _ => false

/-- Model of `RemoteSnapshot.meta.size` from `src/core/types.ts`. -/
structure SnapshotSize where
  schemasCount : Nat
  recordsCount : Nat
  bytes : Option Nat
deriving DecidableEq

/-- Model of `RemoteSnapshot.meta` from `src/core/types.ts`: optional `fetchedAt`
ISO timestamp and optional size information. -/
structure SnapshotMeta where
  fetchedAt : Option String
  size : Option SnapshotSize
deriving DecidableEq

/-- Model of `RemoteSnapshot` from `src/core/types.ts`.  `σ` is the type of
`SchemaDef` entries and `ρ` the type of `EntityRecord` entries: the sync
service never inspects them, so the embedding is parametric. -/
structure RemoteSnapshot (σ ρ : Type) where
  commitId : String
  schemas : List σ
  records : List ρ
  meta : Option SnapshotMeta
deriving DecidableEq

/-- The second argument of `RemoteDatabase.pushSnapshot`
(`Omit<RemoteSnapshot, "commitId">`). -/
structure PushBody (σ ρ : Type) where
  schemas : List σ
  records : List ρ
  meta : Option SnapshotMeta
deriving DecidableEq

/-- The success value of `RemoteDatabase.pushSnapshot`. -/
structure PushResult where
  newCommitId : String
deriving DecidableEq

/-- Model of `LocalSaveOptions.meta.reason` from `src/core/interfaces.ts`. -/
inductive SaveReason where
  | fetch
  | edit
  | sync
  | reset
deriving DecidableEq

/-- Model of `LocalSaveOptions.meta` from `src/core/interfaces.ts`. -/
structure LocalSaveMeta where
  savedAt : Option String
  reason : Option SaveReason
deriving DecidableEq

/-- Model of `LocalSaveOptions` from `src/core/interfaces.ts`: the `synced` flag and
optional metadata passed to `LocalDatabase.save`. -/
structure LocalSaveOptions where
  synced : Bool
  meta : Option LocalSaveMeta
deriving DecidableEq

/-- Model of `LocalState` from `src/core/interfaces.ts`: what `LocalDatabase.load`
returns. -/
structure LocalState (σ ρ : Type) where
  snapshot : Option (RemoteSnapshot σ ρ)
  hasUnsyncedChanges : Bool
deriving DecidableEq

/-- The `status` field of `SyncResult` in `src/core/interfaces.ts`. -/
inductive SyncStatus where
  | upToDate
  | pushed
  | resetToRemote
deriving DecidableEq

/-- The `meta` field of `SyncResult` in `src/core/interfaces.ts`. -/
structure SyncResultMeta where
  previousCommitId : Option String
  changesPushed : Option Nat
  reason : Option String
  duration : Option Nat
deriving DecidableEq

/-- Model of `SyncResult` from `src/core/interfaces.ts`. -/
structure SyncResult (σ ρ : Type) where
  status : SyncStatus
  snapshot : RemoteSnapshot σ ρ
  meta : Option SyncResultMeta
deriving DecidableEq

/-- Model of `SyncError` from `src/core/errors.ts` as thrown by `DefaultSyncService`:
message, `code`, optional `cause` and optional `syncPhase`. -/
structure SyncError where
  message : String
  code : String
  cause : Option DBError
  syncPhase : Option String
deriving DecidableEq

/-- Oracle environment standing for the two ports.  The result of the
`n`-th `fetchSnapshot` / `pushSnapshot` / `save` call is given by the
corresponding function at `n`; the optional members (`remote.init`,
`remote.ping`) are `none` when the port does not implement them.
`isoClock n` is the value of the `n`-th `new Date().toISOString()` and
`msClock n` the value of the `n`-th `Date.now()`. -/
structure Env (σ ρ : Type) where
  fetchResults : Nat → Except DBError (RemoteSnapshot σ ρ)
  pushResults : Nat → Except DBError PushResult
  saveResults : Nat → Except DBError Unit
  loadResult : Except DBError (LocalState σ ρ)
  localInit : Except DBError Unit
  remoteInit : Option (Except DBError Unit)
  ping : Option (Except DBError Unit)
  isoClock : Nat → String
  msClock : Nat → Nat

/-- Effect trace and call counters threaded through one orchestrator
call.  `pushCalls` and `saves` record each call with its arguments. -/
structure World (σ ρ : Type) where
  fetchCount : Nat
  isoCount : Nat
  msCount : Nat
  pushCalls : List (String × PushBody σ ρ)
  saves : List (RemoteSnapshot σ ρ × LocalSaveOptions)
  delays : List Nat
deriving DecidableEq

/-- The world at the start of an orchestrator call, before any effect. -/
def World.initial (σ ρ : Type) : World σ ρ :=
  { fetchCount := 0, isoCount := 0, msCount := 0
    pushCalls := [], saves := [], delays := [] }

/-- One `remote.fetchSnapshot()` call. -/
def doFetch {σ ρ : Type} (env : Env σ ρ) (w : World σ ρ) :
    Except DBError (RemoteSnapshot σ ρ) × World σ ρ :=
  (env.fetchResults w.fetchCount, { w with fetchCount := w.fetchCount + 1 })

/-- One `remote.pushSnapshot(base, body)` call; the call and its
arguments are recorded in the trace. -/
def doPush {σ ρ : Type} (env : Env σ ρ) (base : String) (body : PushBody σ ρ)
    (w : World σ ρ) : Except DBError PushResult × World σ ρ :=
  (env.pushResults w.pushCalls.length,
   { w with pushCalls := w.pushCalls ++ [(base, body)] })

/-- One `local.save(snapshot, options)` call; the call and its arguments
are recorded in the trace. -/
def doSave {σ ρ : Type} (env : Env σ ρ) (s : RemoteSnapshot σ ρ)
    (o : LocalSaveOptions) (w : World σ ρ) : Except DBError Unit × World σ ρ :=
  (env.saveResults w.saves.length, { w with saves := w.saves ++ [(s, o)] })

/-- One `new Date().toISOString()` read. -/
def doNowIso {σ ρ : Type} (env : Env σ ρ) (w : World σ ρ) : String × World σ ρ :=
  (env.isoClock w.isoCount, { w with isoCount := w.isoCount + 1 })

/-- One `Date.now()` read. -/
def doNowMs {σ ρ : Type} (env : Env σ ρ) (w : World σ ρ) : Nat × World σ ρ :=
  (env.msClock w.msCount, { w with msCount := w.msCount + 1 })

/-- Model of `await this.delay(ms)`: the requested wait is recorded in the trace. -/
def doDelay {σ ρ : Type} (ms : Nat) (w : World σ ρ) : World σ ρ :=
  { w with delays := w.delays ++ [ms] }

/-- Model of `SyncServiceOptions` from `src/core/sync.ts` (the port instances live
in `Env`); `none` models an omitted option. -/
structure SyncServiceOptions where
  debug : Option Bool
  maxRetries : Option Nat
  retryDelay : Option Nat
deriving DecidableEq

/-- The resolved options held by a constructed `DefaultSyncService`. -/
structure ResolvedSyncOptions where
  debug : Bool
  maxRetries : Nat
  retryDelay : Nat
deriving DecidableEq

/-- Decidable equality of `Except` values (promise outcomes), needed to
evaluate witnesses on concrete environments. -/
instance {ε α : Type} [DecidableEq ε] [DecidableEq α] : DecidableEq (Except ε α) := fun x y =>
  match x, y with
  | .ok a, .ok b =>
    if h : a = b then .isTrue (by rw [h])
    else .isFalse (by intro hc; injection hc; exact h (by assumption))
  | .error a, .error b =>
    if h : a = b then .isTrue (by rw [h])
    else .isFalse (by intro hc; injection hc; exact h (by assumption))
  | .ok _, .error _ => .isFalse (by intro hc; exact Except.noConfusion hc)
  | .error _, .ok _ => .isFalse (by intro hc; exact Except.noConfusion hc)

/-- The JavaScript `x || d` defaulting idiom on numbers, for `x` a
possibly-missing `Nat`: both `undefined` and the falsy `0` yield the
default. -/
def jsOrNat (x : Option Nat) (d : Nat) : Nat :=
  match x with
  | none => d
  | some n => if n = 0 then d else n

namespace DefaultSyncService

/-- The `DefaultSyncService` constructor of `src/core/sync.ts`:
`debug: options.debug || false`, `maxRetries: options.maxRetries || 3`,
`retryDelay: options.retryDelay || 1000`. -/
def construct (o : SyncServiceOptions) : ResolvedSyncOptions :=
  { debug := o.debug.getD false
    maxRetries := jsOrNat o.maxRetries 3
    retryDelay := jsOrNat o.retryDelay 1000 }

/-- Model of `DefaultSyncService.withRetry` from `src/core/sync.ts`: run the
operation; an `OutOfDateError` is rethrown without retry; otherwise, if
`attempt >= maxRetries` the error is rethrown, else the service waits
`retryDelay * attempt` and retries with `attempt + 1`. -/
def withRetry {σ ρ α : Type} (opts : ResolvedSyncOptions)
    (operation : World σ ρ → Except DBError α × World σ ρ)
    (attempt : Nat) (w : World σ ρ) : Except DBError α × World σ ρ :=
  match operation w with
  | (.ok v, w1) => (.ok v, w1)
  | (.error e, w1) =>
    if isErrorOfTypeOutOfDate e then (.error e, w1)
    else if opts.maxRetries ≤ attempt then (.error e, w1)
    else withRetry opts operation (attempt + 1)
      (doDelay (opts.retryDelay * attempt) w1)
termination_by opts.maxRetries - attempt
decreasing_by omega

/-- The `SyncError` thrown from the outer catch of `sync`
(`"SYNC_FAILED"`, phase `"sync"`); the debug call before it reads
`Date.now()` once. -/
def syncFailureResult {σ ρ : Type} (env : Env σ ρ) (e : DBError)
    (w : World σ ρ) : Except SyncError (SyncResult σ ρ) × World σ ρ :=
  let p := doNowMs env w
  (.error { message := "Sync failed: " ++ e.message, code := "SYNC_FAILED"
            cause := some e, syncPhase := some "sync" }, p.2)

/-- The `catch (pushError)` block of `sync` in `src/core/sync.ts`
(lines 245-271).  The inner `try` of `sync` covers the whole
push-and-save block, so both a failed `withRetry` push and a failed
`local.save` of the pushed snapshot land here: fetch the latest remote,
save it with `synced: true`, and return `"resetToRemote"`.  A failure of
this fallback fetch or fallback save is not caught here; it propagates
to the outer catch (`syncFailureResult`). -/
def pushFallback {σ ρ : Type} (env : Env σ ρ)
    (localSnapshot : RemoteSnapshot σ ρ) (pushError : DBError)
    (startTime : Nat) (w3 : World σ ρ) :
    Except SyncError (SyncResult σ ρ) × World σ ρ :=
  match doFetch env w3 with
  | (.error e, w4) => syncFailureResult env e w4
  | (.ok latestRemote, w4) =>
    let p1 := doNowIso env w4
    match doSave env latestRemote
        { synced := true
          meta := some { savedAt := some p1.1, reason := some .reset } }
        p1.2 with
    | (.error e, w6) => syncFailureResult env e w6
    | (.ok _, w6) =>
      let p2 := doNowMs env w6
      (.ok { status := .resetToRemote
             snapshot := latestRemote
             meta := some
               { previousCommitId := some localSnapshot.commitId
                 changesPushed := none
                 reason := some ("Push failed: " ++ pushError.message)
                 duration := some (p2.1 - startTime) } }, p2.2)

/-- Model of `DefaultSyncService.sync` from `src/core/sync.ts`. -/
def sync {σ ρ : Type} [DecidableEq σ] [DecidableEq ρ]
    (opts : ResolvedSyncOptions) (env : Env σ ρ)
    (localSnapshot : RemoteSnapshot σ ρ) (w0 : World σ ρ) :
    Except SyncError (SyncResult σ ρ) × World σ ρ :=
  let p0 := doNowMs env w0
  let startTime := p0.1
  match doFetch env p0.2 with
  | (.error e, w2) => syncFailureResult env e w2
  | (.ok remoteSnapshot, w2) =>
    if remoteSnapshot.commitId ≠ localSnapshot.commitId then
      -- Remote advanced: reset local state to remote.
      let p1 := doNowIso env w2
      match doSave env remoteSnapshot
          { synced := true
            meta := some { savedAt := some p1.1, reason := some .reset } }
          p1.2 with
      | (.error e, w4) => syncFailureResult env e w4
      | (.ok _, w4) =>
        let p2 := doNowMs env w4
        (.ok { status := .resetToRemote
               snapshot := remoteSnapshot
               meta := some { previousCommitId := some localSnapshot.commitId
                              changesPushed := none
                              reason := some "Remote advanced since last sync"
                              duration := some (p2.1 - startTime) } }, p2.2)
    else
      -- Remote has not advanced: push local changes under retry.
      match withRetry opts
          (doPush env localSnapshot.commitId
            { schemas := localSnapshot.schemas
              records := localSnapshot.records
              meta := localSnapshot.meta }) 1 w2 with
      | (.ok pushResult, w3) =>
        let p1 := doNowIso env w3
        let newSnapshot : RemoteSnapshot σ ρ :=
          { localSnapshot with
            commitId := pushResult.newCommitId
            meta := some { fetchedAt := some p1.1
                           size := localSnapshot.meta.bind SnapshotMeta.size } }
        let p2 := doNowIso env p1.2
        match doSave env newSnapshot
            { synced := true
              meta := some { savedAt := some p2.1, reason := some .sync } }
            p2.2 with
        | (.error e, w6) =>
          -- The save is inside the inner try: its failure is caught as
          -- pushError and falls back to reset-to-remote.
          pushFallback env localSnapshot e startTime w6
        | (.ok _, w6) =>
          let p3 := doNowMs env w6
          let p4 := doNowMs env p3.2
          (.ok { status := .pushed
                 snapshot := newSnapshot
                 meta := some
                   { previousCommitId := some localSnapshot.commitId
                     changesPushed := some (localSnapshot.schemas.length +
                       localSnapshot.records.length)
                     reason := some "Local changes pushed successfully"
                     duration := some (p4.1 - startTime) } }, p4.2)
      | (.error pushError, w3) =>
        -- Push failed: fetch latest remote and reset.
        pushFallback env localSnapshot pushError startTime w3

/-- The `SyncError` thrown from the catch of `loadInitial`
(`"INITIAL_LOAD_FAILED"`, phase `"initial_load"`). -/
def initialLoadFailure (e : DBError) : SyncError :=
  { message := "Initial load failed: " ++ e.message
    code := "INITIAL_LOAD_FAILED", cause := some e
    syncPhase := some "initial_load" }

/-- Model of `Promise.all([local.init(), remote.init?.()])`: both are started;
the model reports the local error first when both fail (`Promise.all`
rejects with one of them), and an absent `remote.init` resolves. -/
def initResults {σ ρ : Type} (env : Env σ ρ) : Except DBError Unit :=
  match env.localInit with
  | .error e => .error e
  | .ok _ =>
    match env.remoteInit with
    | some (.error e) => .error e
    | _ => .ok ()

/-- Model of `DefaultSyncService.loadInitial` from `src/core/sync.ts`. -/
def loadInitial {σ ρ : Type} [DecidableEq σ] [DecidableEq ρ]
    (env : Env σ ρ) (w0 : World σ ρ) :
    Except SyncError (RemoteSnapshot σ ρ) × World σ ρ :=
  let p0 := doNowMs env w0
  match initResults env with
  | .error e => (.error (initialLoadFailure e), p0.2)
  | .ok _ =>
    match env.loadResult with
    | .error e => (.error (initialLoadFailure e), p0.2)
    | .ok localState =>
      match localState.snapshot with
      | none =>
        -- First time setup: fetch from remote and persist.
        match doFetch env p0.2 with
        | (.error e, w2) => (.error (initialLoadFailure e), w2)
        | (.ok remoteSnapshot, w2) =>
          let p1 := doNowIso env w2
          match doSave env remoteSnapshot
              { synced := true
                meta := some { savedAt := some p1.1, reason := some .fetch } }
              p1.2 with
          | (.error e, w4) => (.error (initialLoadFailure e), w4)
          | (.ok _, w4) =>
            let p2 := doNowMs env w4
            (.ok remoteSnapshot, p2.2)
      | some cached =>
        -- Local state exists: check whether remote is newer; any failure
        -- inside this block falls back to the cached snapshot.
        match doFetch env p0.2 with
        | (.error _, w2) => (.ok cached, w2)
        | (.ok remoteSnapshot, w2) =>
          if remoteSnapshot.commitId ≠ cached.commitId then
            let p1 := doNowIso env w2
            match doSave env remoteSnapshot
                { synced := true
                  meta := some { savedAt := some p1.1, reason := some .reset } }
                p1.2 with
            | (.error _, w4) => (.ok cached, w4)
            | (.ok _, w4) =>
              let p2 := doNowMs env w4
              (.ok remoteSnapshot, p2.2)
          else
            let p1 := doNowMs env w2
            (.ok cached, p1.2)

/-- The probe performed by `canSync`: `await this.options.remote.ping?.()`.
When the port has no `ping`, the optional call resolves. -/
def pingProbe {σ ρ : Type} (env : Env σ ρ) : Except DBError Unit :=
  match env.ping with
  | some r => r
  | none => .ok ()

/-- Model of `DefaultSyncService.canSync` from `src/core/sync.ts`: ping the remote,
return `true`; any exception is swallowed and yields `false`.  No port
write is performed, so the world is unchanged. -/
def canSync {σ ρ : Type} (env : Env σ ρ) (_localSnapshot : RemoteSnapshot σ ρ)
    (w : World σ ρ) : Bool × World σ ρ :=
  match pingProbe env with
  | .ok _ => (true, w)
  | .error _ => (false, w)

end DefaultSyncService

/-- The `LocalState` a conforming `LocalDatabase` reports after the
recorded saves (contract in `src/core/interfaces.ts`: `hasUnsyncedChanges`
is the flag saved at the last `save` call, i.e. the negation of its
`synced` option). -/
def cacheStateAfter {σ ρ : Type} (initial : LocalState σ ρ)
    (saves : List (RemoteSnapshot σ ρ × LocalSaveOptions)) : LocalState σ ρ :=
  match saves.getLast? with
  | none => initial
  | some (s, o) => { snapshot := some s, hasUnsyncedChanges := !o.synced }

/-! ## Concrete fixtures for witnesses and counterexamples -/

/-- Resolved options of a service constructed with all options omitted. -/
def optsDefault : ResolvedSyncOptions :=
  DefaultSyncService.construct { debug := none, maxRetries := none, retryDelay := none }

/-- A local snapshot at commit `"v1"` with one schema and two records. -/
def snapA : RemoteSnapshot Nat Nat :=
  { commitId := "v1", schemas := [10], records := [20, 21]
    meta := some { fetchedAt := some "2020-01-01T00:00:00Z", size := none } }

/-- A remote snapshot at commit `"v2"`. -/
def snapB : RemoteSnapshot Nat Nat :=
  { commitId := "v2", schemas := [30], records := [], meta := none }

/-- Remote snapshot whose commit id matches that of `snapA`. -/
def snapBase : RemoteSnapshot Nat Nat :=
  { commitId := "v1", schemas := [], records := [], meta := none }

/-- An environment whose remote is at `"v2"` on every fetch and whose
cache accepts every save. -/
def envDiverged : Env Nat Nat :=
  { fetchResults := fun _ => .ok snapB
    pushResults := fun _ => .error (.remote "network down")
    saveResults := fun _ => .ok ()
    loadResult := .ok { snapshot := some snapA, hasUnsyncedChanges := false }
    localInit := .ok ()
    remoteInit := none
    ping := none
    isoClock := fun _ => "2024-01-01T00:00:00Z"
    msClock := fun _ => 5 }

/-- Environment whose remote matches the local base commit and whose
`pushSnapshot` always throws `OutOfDateError`. -/
def envOutOfDate : Env Nat Nat :=
  { envDiverged with
    fetchResults := fun _ => .ok snapBase
    pushResults := fun _ => .error (.outOfDate "remote advanced") }

/-- Environment whose remote matches the local base commit and whose
`pushSnapshot` always throws a transient network error. -/
def envTransient : Env Nat Nat :=
  { envDiverged with
    fetchResults := fun _ => .ok snapBase
    pushResults := fun _ => .error (.remote "502 bad gateway") }

/-- Environment whose remote matches the local base commit and whose
`pushSnapshot` succeeds with `newCommitId = "v2"`. -/
def envPushOk : Env Nat Nat :=
  { envDiverged with
    fetchResults := fun _ => .ok snapBase
    pushResults := fun _ => .ok { newCommitId := "v2" } }

/-- Environment whose remote fetch always fails. -/
def envFetchFail : Env Nat Nat :=
  { envDiverged with fetchResults := fun _ => .error (.remote "offline") }

/-- Environment whose remote fetch succeeds once at the base commit and
fails afterwards, and whose push always fails transiently. -/
def envSecondFetchFail : Env Nat Nat :=
  { envDiverged with
    fetchResults := fun n => if n = 0 then .ok snapBase
      else .error (.remote "offline")
    pushResults := fun _ => .error (.remote "502 bad gateway") }

/-- Environment with a populated, dirty cache and a remote whose fetch
always fails. -/
def envOfflineDirty : Env Nat Nat :=
  { envFetchFail with
    loadResult := .ok { snapshot := some snapA, hasUnsyncedChanges := true } }

/-- Environment whose remote implements `ping` and is unreachable. -/
def envPingFail : Env Nat Nat :=
  { envDiverged with ping := some (.error (.remote "unreachable")) }

/-- Environment whose remote implements `ping` and is reachable. -/
def envPingOk : Env Nat Nat :=
  { envDiverged with ping := some (.ok ()) }

/-! ## General lemmas about the retry loop -/

/-- One-step unfolding of `withRetry` (its defining equation, stated so
that `simp` can evaluate concrete runs). -/
theorem withRetry_unfold {σ ρ α : Type} (opts : ResolvedSyncOptions)
    (operation : World σ ρ → Except DBError α × World σ ρ)
    (attempt : Nat) (w : World σ ρ) :
    DefaultSyncService.withRetry opts operation attempt w =
      match operation w with
      | (.ok v, w1) => (.ok v, w1)
      | (.error e, w1) =>
        if isErrorOfTypeOutOfDate e then (.error e, w1)
        else if opts.maxRetries ≤ attempt then (.error e, w1)
        else DefaultSyncService.withRetry opts operation (attempt + 1)
          (doDelay (opts.retryDelay * attempt) w1) := by
  rw [DefaultSyncService.withRetry]

/-- Auxiliary, fuel-indexed: the retry loop around `pushSnapshot` never
fetches, saves, or reads a clock. -/
theorem withRetry_doPush_preserves_aux {σ ρ : Type} (opts : ResolvedSyncOptions)
    (env : Env σ ρ) (base : String) (body : PushBody σ ρ) :
    ∀ (d attempt : Nat) (w : World σ ρ), opts.maxRetries - attempt ≤ d →
      ((DefaultSyncService.withRetry opts (doPush env base body) attempt w).2.saves = w.saves ∧
       (DefaultSyncService.withRetry opts (doPush env base body) attempt w).2.fetchCount = w.fetchCount ∧
       (DefaultSyncService.withRetry opts (doPush env base body) attempt w).2.isoCount = w.isoCount ∧
       (DefaultSyncService.withRetry opts (doPush env base body) attempt w).2.msCount = w.msCount) := by
  intro d
  induction d with
  | zero =>
    intro attempt w hd
    have hle : opts.maxRetries ≤ attempt := by omega
    rw [withRetry_unfold]
    cases hp : env.pushResults w.pushCalls.length with
    | ok v => simp [doPush, hp]
    | error e =>
      simp only [doPush, hp, hle, if_true]
      split <;> simp
  | succ d ih =>
    intro attempt w hd
    rw [withRetry_unfold]
    cases hp : env.pushResults w.pushCalls.length with
    | ok v => simp [doPush, hp]
    | error e =>
      by_cases hood : isErrorOfTypeOutOfDate e
      · simp [doPush, hp, hood]
      · by_cases hle : opts.maxRetries ≤ attempt
        · simp [doPush, hp, hood, hle]
        · simp only [doPush, hp, hood, hle, if_false]
          have := ih (attempt + 1)
            (doDelay (opts.retryDelay * attempt)
              { w with pushCalls := w.pushCalls ++ [(base, body)] })
            (by omega)
          simp [doDelay] at this
          simp [doDelay]
          exact this

/-- The retry loop around `pushSnapshot` never fetches, saves, or reads a
clock. -/
theorem withRetry_doPush_preserves {σ ρ : Type} (opts : ResolvedSyncOptions)
    (env : Env σ ρ) (base : String) (body : PushBody σ ρ)
    (attempt : Nat) (w : World σ ρ) :
    ((DefaultSyncService.withRetry opts (doPush env base body) attempt w).2.saves = w.saves ∧
     (DefaultSyncService.withRetry opts (doPush env base body) attempt w).2.fetchCount = w.fetchCount ∧
     (DefaultSyncService.withRetry opts (doPush env base body) attempt w).2.isoCount = w.isoCount ∧
     (DefaultSyncService.withRetry opts (doPush env base body) attempt w).2.msCount = w.msCount) :=
  withRetry_doPush_preserves_aux opts env base body (opts.maxRetries - attempt) attempt w le_rfl

/-- If the first `pushSnapshot` call fails with `OutOfDateError`, the
retry loop rethrows it immediately: exactly one push call, no delay. -/
theorem withRetry_outOfDate {σ ρ : Type} (opts : ResolvedSyncOptions)
    (env : Env σ ρ) (base : String) (body : PushBody σ ρ) (m : String)
    (attempt : Nat) (w : World σ ρ)
    (h : env.pushResults w.pushCalls.length = .error (.outOfDate m)) :
    DefaultSyncService.withRetry opts (doPush env base body) attempt w =
      (.error (.outOfDate m),
       { w with pushCalls := w.pushCalls ++ [(base, body)] }) := by
  rw [withRetry_unfold]
  simp [doPush, h, isErrorOfTypeOutOfDate]

/-- Auxiliary, fuel-indexed: when every `pushSnapshot` call fails with a
transient (non-`OutOfDate`) error, the retry loop starting at attempt
`a ≥ 1` performs exactly `maxRetries - a + 1` push calls and then
rethrows a transient error. -/
theorem withRetry_transient_count_aux {σ ρ : Type} (opts : ResolvedSyncOptions)
    (env : Env σ ρ) (base : String) (body : PushBody σ ρ)
    (hfail : ∀ n, ∃ m, env.pushResults n = .error (.remote m)) :
    ∀ (d attempt : Nat) (w : World σ ρ), opts.maxRetries - attempt = d →
      ∃ m w', DefaultSyncService.withRetry opts (doPush env base body) attempt w =
          (.error (.remote m), w') ∧
        w'.pushCalls.length = w.pushCalls.length + (opts.maxRetries - attempt) + 1 := by
  intro d
  induction d with
  | zero =>
    intro attempt w hd
    have hle : opts.maxRetries ≤ attempt := by omega
    obtain ⟨m, hm⟩ := hfail w.pushCalls.length
    rw [withRetry_unfold]
    refine ⟨m, { w with pushCalls := w.pushCalls ++ [(base, body)] }, ?_, ?_⟩
    · simp [doPush, hm, isErrorOfTypeOutOfDate, hle]
    · simp; omega
  | succ d ih =>
    intro attempt w hd
    have hlt : attempt < opts.maxRetries := by omega
    obtain ⟨m, hm⟩ := hfail w.pushCalls.length
    rw [withRetry_unfold]
    simp only [doPush, hm, isErrorOfTypeOutOfDate, if_false,
      Nat.not_le.mpr hlt, Bool.false_eq_true]
    obtain ⟨m', w', hrun, hlen⟩ := ih (attempt + 1)
      (doDelay (opts.retryDelay * attempt)
        { w with pushCalls := w.pushCalls ++ [(base, body)] })
      (by omega)
    refine ⟨m', w', hrun, ?_⟩
    simp [doDelay] at hlen
    omega

/-- When every `pushSnapshot` call fails with a transient error, a retry
loop started at attempt 1 performs exactly `maxRetries` push calls. -/
theorem withRetry_transient_count {σ ρ : Type} (opts : ResolvedSyncOptions)
    (env : Env σ ρ) (base : String) (body : PushBody σ ρ)
    (hfail : ∀ n, ∃ m, env.pushResults n = .error (.remote m))
    (h1 : 1 ≤ opts.maxRetries) (w : World σ ρ) :
    ∃ m w', DefaultSyncService.withRetry opts (doPush env base body) 1 w =
        (.error (.remote m), w') ∧
      w'.pushCalls.length = w.pushCalls.length + opts.maxRetries := by
  obtain ⟨m, w', hrun, hlen⟩ := withRetry_transient_count_aux opts env base body hfail
    (opts.maxRetries - 1) 1 w rfl
  exact ⟨m, w', hrun, by omega⟩

/-- Auxiliary, fuel-indexed: when every `pushSnapshot` call fails, the
retry loop fails. -/
theorem withRetry_all_fail_aux {σ ρ : Type} (opts : ResolvedSyncOptions)
    (env : Env σ ρ) (base : String) (body : PushBody σ ρ)
    (hfail : ∀ n, ∃ e, env.pushResults n = .error e) :
    ∀ (d attempt : Nat) (w : World σ ρ), opts.maxRetries - attempt ≤ d →
      ∃ e w', DefaultSyncService.withRetry opts (doPush env base body) attempt w =
        (.error e, w') := by
  intro d
  induction d with
  | zero =>
    intro attempt w hd
    have hle : opts.maxRetries ≤ attempt := by omega
    obtain ⟨e, he⟩ := hfail w.pushCalls.length
    rw [withRetry_unfold]
    refine ⟨e, { w with pushCalls := w.pushCalls ++ [(base, body)] }, ?_⟩
    simp only [doPush, he, hle, if_true]
    split <;> simp
  | succ d ih =>
    intro attempt w hd
    obtain ⟨e, he⟩ := hfail w.pushCalls.length
    rw [withRetry_unfold]
    by_cases hood : isErrorOfTypeOutOfDate e
    · exact ⟨e, { w with pushCalls := w.pushCalls ++ [(base, body)] },
        by simp [doPush, he, hood]⟩
    · by_cases hle : opts.maxRetries ≤ attempt
      · exact ⟨e, { w with pushCalls := w.pushCalls ++ [(base, body)] },
          by simp [doPush, he, hood, hle]⟩
      · obtain ⟨e', w', hrun⟩ := ih (attempt + 1)
          (doDelay (opts.retryDelay * attempt)
            { w with pushCalls := w.pushCalls ++ [(base, body)] })
          (by omega)
        exact ⟨e', w', by simp only [doPush, he, hood, hle, if_false,
          Bool.false_eq_true]; exact hrun⟩

/-- When every `pushSnapshot` call fails, the retry loop fails. -/
theorem withRetry_all_fail {σ ρ : Type} (opts : ResolvedSyncOptions)
    (env : Env σ ρ) (base : String) (body : PushBody σ ρ)
    (hfail : ∀ n, ∃ e, env.pushResults n = .error e)
    (attempt : Nat) (w : World σ ρ) :
    ∃ e w', DefaultSyncService.withRetry opts (doPush env base body) attempt w =
      (.error e, w') :=
  withRetry_all_fail_aux opts env base body hfail (opts.maxRetries - attempt)
    attempt w le_rfl

/-! ## C1 -/

/-- C1: if the remote snapshot fetched at the start of `sync(S)` has a
commit id different from `S.commitId`, `sync` returns a
`"resetToRemote"` result whose snapshot is exactly the fetched remote
snapshot and whose `meta.previousCommitId` is `S.commitId`, the cache is
saved with that snapshot and `synced: true` before returning, and
`pushSnapshot` is never invoked. -/
theorem sync_resetToRemote_on_divergence {σ ρ : Type} [DecidableEq σ] [DecidableEq ρ]
    (opts : ResolvedSyncOptions) (env : Env σ ρ) (S R : RemoteSnapshot σ ρ)
    (w : World σ ρ)
    (hfetch : env.fetchResults w.fetchCount = .ok R)
    (hne : R.commitId ≠ S.commitId)
    (hsave : env.saveResults w.saves.length = .ok ()) :
    ∃ res w', DefaultSyncService.sync opts env S w = (.ok res, w') ∧
      res.status = .resetToRemote ∧
      res.snapshot = R ∧
      (∃ mt, res.meta = some mt ∧ mt.previousCommitId = some S.commitId) ∧
      (∃ so, w'.saves = w.saves ++ [(R, so)] ∧ so.synced = true) ∧
      w'.pushCalls = w.pushCalls := by
  simp only [DefaultSyncService.sync, doNowMs, doFetch, doNowIso, doSave, hfetch, hne,
    ne_eq, not_false_eq_true, if_true, hsave]
  exact ⟨_, _, rfl, rfl, rfl, ⟨_, rfl, rfl⟩, ⟨_, rfl, rfl⟩, rfl⟩

/-- Witness for C1 on a concrete diverged environment. -/
theorem sync_resetToRemote_on_divergence_witness :
    (envDiverged.fetchResults (World.initial Nat Nat).fetchCount = .ok snapB) ∧
    (snapB.commitId ≠ snapA.commitId) ∧
    (envDiverged.saveResults (World.initial Nat Nat).saves.length = .ok ()) ∧
    (∃ res w', DefaultSyncService.sync optsDefault envDiverged snapA (World.initial Nat Nat) =
        (.ok res, w') ∧
      res.status = .resetToRemote ∧
      res.snapshot = snapB ∧
      (∃ mt, res.meta = some mt ∧ mt.previousCommitId = some snapA.commitId) ∧
      (∃ so, w'.saves = (World.initial Nat Nat).saves ++ [(snapB, so)] ∧ so.synced = true) ∧
      w'.pushCalls = (World.initial Nat Nat).pushCalls) :=
  ⟨rfl, by decide,
   rfl,
   sync_resetToRemote_on_divergence optsDefault envDiverged snapA snapB
     (World.initial Nat Nat) rfl (by decide) rfl⟩

/-! ## C2 -/

/-- C2: when `pushSnapshot` throws `OutOfDateError` on every invocation
and the commit ids match, one `sync` call invokes `pushSnapshot` exactly
once (no retries, no retry delays) and then falls back to fetching the
remote again and returning a `"resetToRemote"` result. -/
theorem sync_outOfDate_pushes_once {σ ρ : Type} [DecidableEq σ] [DecidableEq ρ]
    (opts : ResolvedSyncOptions) (env : Env σ ρ) (S R1 R2 : RemoteSnapshot σ ρ)
    (w : World σ ρ)
    (hfetch1 : env.fetchResults w.fetchCount = .ok R1)
    (hmatch : R1.commitId = S.commitId)
    (hpush : ∀ n, ∃ m, env.pushResults n = .error (.outOfDate m))
    (hfetch2 : env.fetchResults (w.fetchCount + 1) = .ok R2)
    (hsave : env.saveResults w.saves.length = .ok ()) :
    ∃ res w', DefaultSyncService.sync opts env S w = (.ok res, w') ∧
      res.status = .resetToRemote ∧
      res.snapshot = R2 ∧
      w'.pushCalls.length = w.pushCalls.length + 1 ∧
      w'.fetchCount = w.fetchCount + 2 ∧
      w'.delays = w.delays := by
  obtain ⟨m, hm⟩ := hpush w.pushCalls.length
  have hwr := withRetry_outOfDate opts env S.commitId
    { schemas := S.schemas, records := S.records, meta := S.meta } m 1
    { w with msCount := w.msCount + 1, fetchCount := w.fetchCount + 1 }
    (by simpa using hm)
  simp only [DefaultSyncService.sync, DefaultSyncService.pushFallback, doNowMs,
    doFetch, doNowIso, doSave, hfetch1, hmatch, ne_eq, not_true_eq_false,
    if_false, hwr, hfetch2, hsave]
  exact ⟨_, _, rfl, rfl, rfl, by simp, rfl, rfl⟩

/-- Witness for C2 on a concrete always-out-of-date environment. -/
theorem sync_outOfDate_pushes_once_witness :
    (envOutOfDate.fetchResults (World.initial Nat Nat).fetchCount = .ok snapBase) ∧
    (snapBase.commitId = snapA.commitId) ∧
    (∀ n, ∃ m, envOutOfDate.pushResults n = .error (.outOfDate m)) ∧
    (envOutOfDate.fetchResults ((World.initial Nat Nat).fetchCount + 1) = .ok snapBase) ∧
    (envOutOfDate.saveResults (World.initial Nat Nat).saves.length = .ok ()) ∧
    (∃ res w', DefaultSyncService.sync optsDefault envOutOfDate snapA (World.initial Nat Nat) =
        (.ok res, w') ∧
      res.status = .resetToRemote ∧
      res.snapshot = snapBase ∧
      w'.pushCalls.length = (World.initial Nat Nat).pushCalls.length + 1 ∧
      w'.fetchCount = (World.initial Nat Nat).fetchCount + 2 ∧
      w'.delays = (World.initial Nat Nat).delays) :=
  ⟨rfl, by decide, fun _ => ⟨"remote advanced", rfl⟩, rfl, rfl,
   sync_outOfDate_pushes_once optsDefault envOutOfDate snapA snapBase snapBase
     (World.initial Nat Nat) rfl (by decide)
     (fun _ => ⟨"remote advanced", rfl⟩) rfl rfl⟩

/-! ## C3 -/

/-- C3: for every configured `maxRetries ≥ 1`, when `pushSnapshot`
throws a transient (non-`OutOfDate`) error on every invocation and a
push is attempted, `pushSnapshot` is invoked exactly `maxRetries` times
before `sync` gives up and falls back to reset-to-remote. -/
theorem sync_transient_retry_count {σ ρ : Type} [DecidableEq σ] [DecidableEq ρ]
    (o : SyncServiceOptions) (k : Nat) (env : Env σ ρ)
    (S R1 R2 : RemoteSnapshot σ ρ) (w : World σ ρ)
    (hk : 1 ≤ k) (hcfg : o.maxRetries = some k)
    (hfetch1 : env.fetchResults w.fetchCount = .ok R1)
    (hmatch : R1.commitId = S.commitId)
    (hpush : ∀ n, ∃ m, env.pushResults n = .error (.remote m))
    (hfetch2 : env.fetchResults (w.fetchCount + 1) = .ok R2)
    (hsave : env.saveResults w.saves.length = .ok ()) :
    ∃ res w', DefaultSyncService.sync (DefaultSyncService.construct o) env S w =
        (.ok res, w') ∧
      res.status = .resetToRemote ∧
      w'.pushCalls.length = w.pushCalls.length + k := by
  have hmax : (DefaultSyncService.construct o).maxRetries = k := by
    simp [DefaultSyncService.construct, jsOrNat, hcfg]
    omega
  obtain ⟨m, w1, hwr, hlen⟩ := withRetry_transient_count
    (DefaultSyncService.construct o) env S.commitId
    { schemas := S.schemas, records := S.records, meta := S.meta }
    hpush (by omega)
    { w with msCount := w.msCount + 1, fetchCount := w.fetchCount + 1 }
  have hpres := withRetry_doPush_preserves (DefaultSyncService.construct o) env S.commitId
    { schemas := S.schemas, records := S.records, meta := S.meta } 1
    { w with msCount := w.msCount + 1, fetchCount := w.fetchCount + 1 }
  rw [hwr] at hpres
  simp only [DefaultSyncService.sync, DefaultSyncService.pushFallback, doNowMs,
    doFetch, doNowIso, doSave, hfetch1, hmatch, ne_eq, not_true_eq_false,
    if_false, hwr]
  rw [hpres.2.1, hpres.1]
  simp only [hfetch2, hsave]
  refine ⟨_, _, rfl, rfl, ?_⟩
  simp at hlen
  simp [hlen, hmax]

/-- Witness for C3 with `maxRetries` configured to 2. -/
theorem sync_transient_retry_count_witness :
    (1 ≤ 2) ∧
    ((({ debug := none, maxRetries := some 2, retryDelay := none } :
        SyncServiceOptions)).maxRetries = some 2) ∧
    (envTransient.fetchResults (World.initial Nat Nat).fetchCount = .ok snapBase) ∧
    (snapBase.commitId = snapA.commitId) ∧
    (∀ n, ∃ m, envTransient.pushResults n = .error (.remote m)) ∧
    (envTransient.fetchResults ((World.initial Nat Nat).fetchCount + 1) = .ok snapBase) ∧
    (envTransient.saveResults (World.initial Nat Nat).saves.length = .ok ()) ∧
    (∃ res w', DefaultSyncService.sync
        (DefaultSyncService.construct
          { debug := none, maxRetries := some 2, retryDelay := none })
        envTransient snapA (World.initial Nat Nat) = (.ok res, w') ∧
      res.status = .resetToRemote ∧
      w'.pushCalls.length = (World.initial Nat Nat).pushCalls.length + 2) :=
  ⟨by decide, rfl, rfl, by decide, fun _ => ⟨"502 bad gateway", rfl⟩, rfl, rfl,
   sync_transient_retry_count
     { debug := none, maxRetries := some 2, retryDelay := none } 2
     envTransient snapA snapBase snapBase (World.initial Nat Nat)
     (by decide) rfl rfl (by decide) (fun _ => ⟨"502 bad gateway", rfl⟩) rfl rfl⟩

/-! ## C4 -/

/-- Counterexample to C4 as stated: with `retryDelay` configured to `0`
(accepted by the constructor), the `||`-defaulting replaces it by 1000,
and the wait recorded before the second push attempt is `1000`, not
`0 * 1 = 0`. -/
theorem sync_zero_retryDelay_cex :
    (DefaultSyncService.construct
      { debug := none, maxRetries := some 2, retryDelay := some 0 }).retryDelay
        = 1000 ∧
    (DefaultSyncService.sync
      (DefaultSyncService.construct
        { debug := none, maxRetries := some 2, retryDelay := some 0 })
      envTransient snapA (World.initial Nat Nat)).2.delays = [1000] ∧
    ([1000] : List Nat) ≠ [0 * 1] := by
  refine ⟨rfl, ?_, by decide⟩
  simp [DefaultSyncService.sync, DefaultSyncService.pushFallback,
    DefaultSyncService.construct, withRetry_unfold, doFetch, doSave, doPush,
    doDelay, doNowIso, doNowMs, World.initial, jsOrNat, envTransient,
    envDiverged, snapA, snapBase, isErrorOfTypeOutOfDate,
    DefaultSyncService.syncFailureResult]

/-- C4 amended: a configured `retryBaseDelay ≥ 1` is kept and the wait
before the attempt after a transient failure of attempt `n` (with
attempts remaining) is exactly the resolved `retryDelay * n` (linear
backoff); a configured `retryBaseDelay` of `0` is falsy and is replaced
by the default 1000, so the wait is `1000 * n`, not zero. -/
theorem withRetry_linear_backoff :
    (∀ (o : SyncServiceOptions) (d : Nat), o.retryDelay = some d → 1 ≤ d →
      (DefaultSyncService.construct o).retryDelay = d) ∧
    (∀ o : SyncServiceOptions, o.retryDelay = some 0 →
      (DefaultSyncService.construct o).retryDelay = 1000) ∧
    (∀ (σ ρ : Type) (opts : ResolvedSyncOptions) (env : Env σ ρ) (base : String)
      (body : PushBody σ ρ) (n : Nat) (w : World σ ρ) (m : String),
      n < opts.maxRetries →
      env.pushResults w.pushCalls.length = .error (.remote m) →
      DefaultSyncService.withRetry opts (doPush env base body) n w =
        DefaultSyncService.withRetry opts (doPush env base body) (n + 1)
          (doDelay (opts.retryDelay * n)
            { w with pushCalls := w.pushCalls ++ [(base, body)] }) ∧
      (doDelay (opts.retryDelay * n)
        { w with pushCalls := w.pushCalls ++ [(base, body)] }).delays =
        w.delays ++ [opts.retryDelay * n]) := by
  refine ⟨?_, ?_, ?_⟩
  · intro o d hd h1
    simp [DefaultSyncService.construct, jsOrNat, hd]
    omega
  · intro o hd
    simp [DefaultSyncService.construct, jsOrNat, hd]
  · intro σ ρ opts env base body n w m hlt hp
    constructor
    · rw [withRetry_unfold]
      simp [doPush, hp, isErrorOfTypeOutOfDate, Nat.not_le.mpr hlt]
    · simp [doDelay]

/-- Witness for the amended C4. -/
theorem withRetry_linear_backoff_witness :
    ((({ debug := none, maxRetries := none, retryDelay := some 7 } :
        SyncServiceOptions)).retryDelay = some 7) ∧ (1 ≤ 7) ∧
    (DefaultSyncService.construct
      { debug := none, maxRetries := none, retryDelay := some 7 }).retryDelay = 7 ∧
    ((({ debug := none, maxRetries := none, retryDelay := some 0 } :
        SyncServiceOptions)).retryDelay = some 0) ∧
    (DefaultSyncService.construct
      { debug := none, maxRetries := none, retryDelay := some 0 }).retryDelay = 1000 ∧
    ((1 : Nat) < optsDefault.maxRetries) ∧
    (envTransient.pushResults (World.initial Nat Nat).pushCalls.length =
      .error (.remote "502 bad gateway")) ∧
    (DefaultSyncService.withRetry optsDefault
        (doPush envTransient "v1" { schemas := [], records := [], meta := none }) 1
        (World.initial Nat Nat) =
      DefaultSyncService.withRetry optsDefault
        (doPush envTransient "v1" { schemas := [], records := [], meta := none }) 2
        (doDelay (optsDefault.retryDelay * 1)
          { World.initial Nat Nat with
            pushCalls := (World.initial Nat Nat).pushCalls ++
              [("v1", { schemas := [], records := [], meta := none })] }) ∧
      (doDelay (optsDefault.retryDelay * 1)
        { World.initial Nat Nat with
          pushCalls := (World.initial Nat Nat).pushCalls ++
            [("v1", { schemas := [], records := [], meta := none })] }).delays =
        (World.initial Nat Nat).delays ++ [optsDefault.retryDelay * 1]) :=
  ⟨rfl, by decide,
   withRetry_linear_backoff.1 { debug := none, maxRetries := none, retryDelay := some 7 }
     7 rfl (by decide),
   rfl,
   withRetry_linear_backoff.2.1
     { debug := none, maxRetries := none, retryDelay := some 0 } rfl,
   by decide, rfl,
   withRetry_linear_backoff.2.2 Nat Nat optsDefault envTransient "v1"
     { schemas := [], records := [], meta := none } 1 (World.initial Nat Nat)
     "502 bad gateway" (by decide) rfl⟩

/-! ## C5 -/

/-- C5: when the fetched remote commit id equals `S.commitId` and the
push succeeds with `newCommitId`, `sync` returns a `"pushed"` result
whose snapshot carries `newCommitId`, whose `meta.changesPushed` is
`S.schemas.length + S.records.length`, and the new snapshot is saved
with `synced: true` before returning. -/
theorem sync_pushed_on_success {σ ρ : Type} [DecidableEq σ] [DecidableEq ρ]
    (opts : ResolvedSyncOptions) (env : Env σ ρ) (S R1 : RemoteSnapshot σ ρ)
    (nc : String) (w : World σ ρ)
    (hfetch : env.fetchResults w.fetchCount = .ok R1)
    (hmatch : R1.commitId = S.commitId)
    (hpush : env.pushResults w.pushCalls.length = .ok { newCommitId := nc })
    (hsave : env.saveResults w.saves.length = .ok ()) :
    ∃ res w', DefaultSyncService.sync opts env S w = (.ok res, w') ∧
      res.status = .pushed ∧
      res.snapshot.commitId = nc ∧
      (∃ mt, res.meta = some mt ∧
        mt.changesPushed = some (S.schemas.length + S.records.length) ∧
        mt.previousCommitId = some S.commitId) ∧
      (∃ so, w'.saves = w.saves ++ [(res.snapshot, so)] ∧ so.synced = true) := by
  have hwr : DefaultSyncService.withRetry opts
      (doPush env S.commitId
        { schemas := S.schemas, records := S.records, meta := S.meta }) 1
      { w with msCount := w.msCount + 1, fetchCount := w.fetchCount + 1 } =
      (.ok { newCommitId := nc },
       { w with msCount := w.msCount + 1, fetchCount := w.fetchCount + 1, pushCalls := w.pushCalls ++ [(S.commitId, { schemas := S.schemas, records := S.records, meta := S.meta })] }) := by
    rw [withRetry_unfold]
    simp [doPush, hpush]
  simp only [DefaultSyncService.sync, doNowMs, doFetch, doNowIso, doSave, hfetch,
    hmatch, ne_eq, not_true_eq_false, if_false, hwr, hsave]
  exact ⟨_, _, rfl, rfl, rfl, ⟨_, rfl, rfl, rfl⟩, ⟨_, rfl, rfl⟩⟩

/-- Witness for C5 on a concrete successful-push environment. -/
theorem sync_pushed_on_success_witness :
    (envPushOk.fetchResults (World.initial Nat Nat).fetchCount = .ok snapBase) ∧
    (snapBase.commitId = snapA.commitId) ∧
    (envPushOk.pushResults (World.initial Nat Nat).pushCalls.length =
      .ok { newCommitId := "v2" }) ∧
    (envPushOk.saveResults (World.initial Nat Nat).saves.length = .ok ()) ∧
    (∃ res w', DefaultSyncService.sync optsDefault envPushOk snapA
        (World.initial Nat Nat) = (.ok res, w') ∧
      res.status = .pushed ∧
      res.snapshot.commitId = "v2" ∧
      (∃ mt, res.meta = some mt ∧
        mt.changesPushed = some (snapA.schemas.length + snapA.records.length) ∧
        mt.previousCommitId = some snapA.commitId) ∧
      (∃ so, w'.saves = (World.initial Nat Nat).saves ++ [(res.snapshot, so)] ∧
        so.synced = true)) :=
  ⟨rfl, by decide, rfl, rfl,
   sync_pushed_on_success optsDefault envPushOk snapA snapBase "v2"
     (World.initial Nat Nat) rfl (by decide) rfl rfl⟩

/-! ## C6 -/

/-- Counterexample to C6 as stated: on a successful push the returned
snapshot has a `meta` different from that of the input snapshot — `fetchedAt` is
overwritten with the current time (`{ ...localSnapshot.meta, fetchedAt:
new Date().toISOString() }`). -/
theorem sync_pushed_meta_overwritten_cex :
    ∃ res w', DefaultSyncService.sync optsDefault envPushOk snapA
        (World.initial Nat Nat) = (.ok res, w') ∧
      res.status = .pushed ∧
      res.snapshot.meta ≠ snapA.meta := by
  have h1 : (DefaultSyncService.sync optsDefault envPushOk snapA
      (World.initial Nat Nat)).1 =
      .ok { status := .pushed
            snapshot := { commitId := "v2", schemas := [10], records := [20, 21], meta := some { fetchedAt := some "2024-01-01T00:00:00Z", size := none } }
            meta := some { previousCommitId := some "v1", changesPushed := some 3, reason := some "Local changes pushed successfully", duration := some 0 } } := by
    simp [DefaultSyncService.sync, withRetry_unfold, doFetch, doSave, doPush,
      doDelay, doNowIso, doNowMs, World.initial, optsDefault,
      DefaultSyncService.construct, jsOrNat, envPushOk, envDiverged, snapA,
      snapBase, isErrorOfTypeOutOfDate]
  rcases hrun : DefaultSyncService.sync optsDefault envPushOk snapA
    (World.initial Nat Nat) with ⟨r, wf⟩
  rw [hrun] at h1
  simp only [] at h1
  refine ⟨_, wf, by rw [h1], rfl, by decide⟩

/-- C6 amended: on a successful push the returned snapshot keeps the
schemas and records of `S` unchanged, its commit id is the new commit id
returned by the remote, and its `meta` is the meta of `S` with `fetchedAt`
replaced by the time of the push (the `size` component is kept). -/
theorem sync_pushed_snapshot_frame {σ ρ : Type} [DecidableEq σ] [DecidableEq ρ]
    (opts : ResolvedSyncOptions) (env : Env σ ρ) (S R1 : RemoteSnapshot σ ρ)
    (nc : String) (w : World σ ρ)
    (hfetch : env.fetchResults w.fetchCount = .ok R1)
    (hmatch : R1.commitId = S.commitId)
    (hpush : env.pushResults w.pushCalls.length = .ok { newCommitId := nc })
    (hsave : env.saveResults w.saves.length = .ok ()) :
    ∃ res w', DefaultSyncService.sync opts env S w = (.ok res, w') ∧
      res.status = .pushed ∧
      res.snapshot.schemas = S.schemas ∧
      res.snapshot.records = S.records ∧
      res.snapshot.commitId = nc ∧
      res.snapshot.meta = some { fetchedAt := some (env.isoClock w.isoCount)
                                 size := S.meta.bind SnapshotMeta.size } := by
  have hwr : DefaultSyncService.withRetry opts
      (doPush env S.commitId
        { schemas := S.schemas, records := S.records, meta := S.meta }) 1
      { w with msCount := w.msCount + 1, fetchCount := w.fetchCount + 1 } =
      (.ok { newCommitId := nc },
       { w with msCount := w.msCount + 1, fetchCount := w.fetchCount + 1, pushCalls := w.pushCalls ++ [(S.commitId, { schemas := S.schemas, records := S.records, meta := S.meta })] }) := by
    rw [withRetry_unfold]
    simp [doPush, hpush]
  simp only [DefaultSyncService.sync, doNowMs, doFetch, doNowIso, doSave, hfetch,
    hmatch, ne_eq, not_true_eq_false, if_false, hwr, hsave]
  exact ⟨_, _, rfl, rfl, rfl, rfl, rfl, rfl⟩

/-- Witness for the amended C6. -/
theorem sync_pushed_snapshot_frame_witness :
    (envPushOk.fetchResults (World.initial Nat Nat).fetchCount = .ok snapBase) ∧
    (snapBase.commitId = snapA.commitId) ∧
    (envPushOk.pushResults (World.initial Nat Nat).pushCalls.length =
      .ok { newCommitId := "v2" }) ∧
    (envPushOk.saveResults (World.initial Nat Nat).saves.length = .ok ()) ∧
    (∃ res w', DefaultSyncService.sync optsDefault envPushOk snapA
        (World.initial Nat Nat) = (.ok res, w') ∧
      res.status = .pushed ∧
      res.snapshot.schemas = snapA.schemas ∧
      res.snapshot.records = snapA.records ∧
      res.snapshot.commitId = "v2" ∧
      res.snapshot.meta = some
        { fetchedAt := some (envPushOk.isoClock (World.initial Nat Nat).isoCount)
          size := snapA.meta.bind SnapshotMeta.size }) :=
  ⟨rfl, by decide, rfl, rfl,
   sync_pushed_snapshot_frame optsDefault envPushOk snapA snapBase "v2"
     (World.initial Nat Nat) rfl (by decide) rfl rfl⟩

/-! ## C7 -/

/-- C7: (1) if the first fetch of `sync` fails, `sync` throws a
`SyncError` with phase `"sync"`; (2) if the push fails on every attempt
but the fallback fetch succeeds, `sync` recovers and returns
`"resetToRemote"` without throwing; (3) if the fallback fetch also
fails, `sync` throws a `SyncError` with phase `"sync"`. -/
theorem sync_error_propagation {σ ρ : Type} [DecidableEq σ] [DecidableEq ρ] :
    (∀ (opts : ResolvedSyncOptions) (env : Env σ ρ) (S : RemoteSnapshot σ ρ)
      (w : World σ ρ) (e : DBError),
      env.fetchResults w.fetchCount = .error e →
      ∃ se w', DefaultSyncService.sync opts env S w = (.error se, w') ∧
        se.syncPhase = some "sync" ∧ se.code = "SYNC_FAILED" ∧
        se.cause = some e) ∧
    (∀ (opts : ResolvedSyncOptions) (env : Env σ ρ)
      (S R1 R2 : RemoteSnapshot σ ρ) (w : World σ ρ),
      env.fetchResults w.fetchCount = .ok R1 →
      R1.commitId = S.commitId →
      (∀ n, ∃ e, env.pushResults n = .error e) →
      env.fetchResults (w.fetchCount + 1) = .ok R2 →
      env.saveResults w.saves.length = .ok () →
      ∃ res w', DefaultSyncService.sync opts env S w = (.ok res, w') ∧
        res.status = .resetToRemote ∧ res.snapshot = R2) ∧
    (∀ (opts : ResolvedSyncOptions) (env : Env σ ρ)
      (S R1 : RemoteSnapshot σ ρ) (w : World σ ρ) (e2 : DBError),
      env.fetchResults w.fetchCount = .ok R1 →
      R1.commitId = S.commitId →
      (∀ n, ∃ e, env.pushResults n = .error e) →
      env.fetchResults (w.fetchCount + 1) = .error e2 →
      ∃ se w', DefaultSyncService.sync opts env S w = (.error se, w') ∧
        se.syncPhase = some "sync" ∧ se.code = "SYNC_FAILED" ∧
        se.cause = some e2) := by
  refine ⟨?_, ?_, ?_⟩
  · intro opts env S w e hfe
    simp only [DefaultSyncService.sync, doNowMs, doFetch,
      DefaultSyncService.syncFailureResult, hfe]
    exact ⟨_, _, rfl, rfl, rfl, rfl⟩
  · intro opts env S R1 R2 w hfetch1 hmatch hpush hfetch2 hsave
    obtain ⟨e, w1, hwr⟩ := withRetry_all_fail opts env S.commitId
      { schemas := S.schemas, records := S.records, meta := S.meta } hpush 1
      { w with msCount := w.msCount + 1, fetchCount := w.fetchCount + 1 }
    have hpres := withRetry_doPush_preserves opts env S.commitId
      { schemas := S.schemas, records := S.records, meta := S.meta } 1
      { w with msCount := w.msCount + 1, fetchCount := w.fetchCount + 1 }
    rw [hwr] at hpres
    simp only [DefaultSyncService.sync, DefaultSyncService.pushFallback,
      doNowMs, doFetch, doNowIso, doSave, hfetch1, hmatch, ne_eq,
      not_true_eq_false, if_false, hwr]
    rw [hpres.2.1, hpres.1]
    simp only [hfetch2, hsave]
    exact ⟨_, _, rfl, rfl, rfl⟩
  · intro opts env S R1 w e2 hfetch1 hmatch hpush hfetch2
    obtain ⟨e, w1, hwr⟩ := withRetry_all_fail opts env S.commitId
      { schemas := S.schemas, records := S.records, meta := S.meta } hpush 1
      { w with msCount := w.msCount + 1, fetchCount := w.fetchCount + 1 }
    have hpres := withRetry_doPush_preserves opts env S.commitId
      { schemas := S.schemas, records := S.records, meta := S.meta } 1
      { w with msCount := w.msCount + 1, fetchCount := w.fetchCount + 1 }
    rw [hwr] at hpres
    simp only [DefaultSyncService.sync, DefaultSyncService.pushFallback,
      doNowMs, doFetch, doNowIso, doSave, DefaultSyncService.syncFailureResult,
      hfetch1, hmatch, ne_eq, not_true_eq_false, if_false, hwr]
    rw [hpres.2.1]
    simp only [hfetch2]
    exact ⟨_, _, rfl, rfl, rfl, rfl⟩

/-- Witness for C7, exercising all three branches on concrete
environments. -/
theorem sync_error_propagation_witness :
    (envFetchFail.fetchResults (World.initial Nat Nat).fetchCount =
      .error (.remote "offline")) ∧
    (∃ se w', DefaultSyncService.sync optsDefault envFetchFail snapA
        (World.initial Nat Nat) = (.error se, w') ∧
      se.syncPhase = some "sync" ∧ se.code = "SYNC_FAILED" ∧
      se.cause = some (.remote "offline")) ∧
    (∃ res w', DefaultSyncService.sync optsDefault envOutOfDate snapA
        (World.initial Nat Nat) = (.ok res, w') ∧
      res.status = .resetToRemote ∧ res.snapshot = snapBase) ∧
    (envSecondFetchFail.fetchResults ((World.initial Nat Nat).fetchCount + 1) =
      .error (.remote "offline")) ∧
    (∃ se w', DefaultSyncService.sync optsDefault envSecondFetchFail snapA
        (World.initial Nat Nat) = (.error se, w') ∧
      se.syncPhase = some "sync" ∧ se.code = "SYNC_FAILED" ∧
      se.cause = some (.remote "offline")) :=
  ⟨rfl,
   sync_error_propagation.1 optsDefault envFetchFail snapA
     (World.initial Nat Nat) (.remote "offline") rfl,
   sync_error_propagation.2.1 optsDefault envOutOfDate snapA snapBase snapBase
     (World.initial Nat Nat) rfl (by decide)
     (fun _ => ⟨.outOfDate "remote advanced", rfl⟩) rfl rfl,
   rfl,
   sync_error_propagation.2.2 optsDefault envSecondFetchFail snapA snapBase
     (World.initial Nat Nat) (.remote "offline") rfl (by decide)
     (fun _ => ⟨.remote "502 bad gateway", rfl⟩) rfl⟩

/-! ## C8 -/

/-- C8: with a non-empty cache (any dirty flag), if every remote fetch
fails during `loadInitial`, then `loadInitial` returns the cached
snapshot unchanged and does not throw. -/
theorem loadInitial_offline_fallback {σ ρ : Type} [DecidableEq σ] [DecidableEq ρ]
    (env : Env σ ρ) (cached : RemoteSnapshot σ ρ) (b : Bool) (w : World σ ρ)
    (hinit : DefaultSyncService.initResults env = .ok ())
    (hload : env.loadResult = .ok { snapshot := some cached, hasUnsyncedChanges := b })
    (hfetch : ∀ n, ∃ e, env.fetchResults n = .error e) :
    ∃ w', DefaultSyncService.loadInitial env w = (.ok cached, w') := by
  obtain ⟨e, he⟩ := hfetch w.fetchCount
  simp only [DefaultSyncService.loadInitial, doNowMs, doFetch, hinit, hload, he]
  exact ⟨_, rfl⟩

/-- Witness for C8: a dirty cache at `"v1"` with an unreachable remote. -/
theorem loadInitial_offline_fallback_witness :
    (DefaultSyncService.initResults envOfflineDirty = .ok ()) ∧
    (envOfflineDirty.loadResult =
      .ok { snapshot := some snapA, hasUnsyncedChanges := true }) ∧
    (∀ n, ∃ e, envOfflineDirty.fetchResults n = .error e) ∧
    (∃ w', DefaultSyncService.loadInitial envOfflineDirty (World.initial Nat Nat) =
      (.ok snapA, w')) :=
  ⟨rfl, rfl, fun _ => ⟨.remote "offline", rfl⟩,
   loadInitial_offline_fallback envOfflineDirty snapA true
     (World.initial Nat Nat) rfl rfl (fun _ => ⟨.remote "offline", rfl⟩)⟩

/-! ## C9 -/

/-- C9: `canSync` mutates no state (the world is returned unchanged; it
is total, so it never throws), returns `true` exactly when the `ping`
probe succeeds, and returns `false` whenever the probe raises an
exception (the exception is swallowed). -/
theorem canSync_probe_spec {σ ρ : Type} :
    (∀ (env : Env σ ρ) (S : RemoteSnapshot σ ρ) (w : World σ ρ),
      (DefaultSyncService.canSync env S w).2 = w) ∧
    (∀ (env : Env σ ρ) (S : RemoteSnapshot σ ρ) (w : World σ ρ),
      (DefaultSyncService.canSync env S w).1 = true ↔
        DefaultSyncService.pingProbe env = .ok ()) ∧
    (∀ (env : Env σ ρ) (S : RemoteSnapshot σ ρ) (w : World σ ρ) (e : DBError),
      env.ping = some (.error e) →
      (DefaultSyncService.canSync env S w).1 = false) := by
  refine ⟨?_, ?_, ?_⟩
  · intro env S w
    rcases hp : DefaultSyncService.pingProbe env with u | e <;>
      simp [DefaultSyncService.canSync, hp]
  · intro env S w
    rcases hp : DefaultSyncService.pingProbe env with u | e <;>
      simp [DefaultSyncService.canSync, hp]
  · intro env S w e hping
    simp [DefaultSyncService.canSync, DefaultSyncService.pingProbe, hping]

/-- Witness for C9 on reachable, unreachable, and probe-less remotes. -/
theorem canSync_probe_spec_witness :
    ((DefaultSyncService.canSync envPingFail snapA (World.initial Nat Nat)).2 =
      World.initial Nat Nat) ∧
    ((DefaultSyncService.canSync envPingOk snapA (World.initial Nat Nat)).1 = true ↔
      DefaultSyncService.pingProbe envPingOk = .ok ()) ∧
    (envPingFail.ping = some (.error (.remote "unreachable"))) ∧
    ((DefaultSyncService.canSync envPingFail snapA (World.initial Nat Nat)).1 =
      false) :=
  ⟨canSync_probe_spec.1 envPingFail snapA (World.initial Nat Nat),
   canSync_probe_spec.2.1 envPingOk snapA (World.initial Nat Nat),
   rfl,
   canSync_probe_spec.2.2 envPingFail snapA (World.initial Nat Nat)
     (.remote "unreachable") rfl⟩

/-! ## C10 -/

/-- Every save the push-failure fallback (`catch (pushError)`) performs
carries `synced: true`. -/
theorem pushFallback_saves_synced {σ ρ : Type}
    (env : Env σ ρ) (S : RemoteSnapshot σ ρ) (pushError : DBError)
    (startTime : Nat) (w : World σ ρ)
    (p : RemoteSnapshot σ ρ × LocalSaveOptions)
    (hp : p ∈ (DefaultSyncService.pushFallback env S pushError
      startTime w).2.saves) :
    p ∈ w.saves ∨ p.2.synced = true := by
  rcases hf2 : env.fetchResults w.fetchCount with e2 | R2
  · simp only [DefaultSyncService.pushFallback, doFetch, doNowIso, doSave,
      DefaultSyncService.syncFailureResult, doNowMs, hf2] at hp
    exact Or.inl hp
  · rcases hsv : env.saveResults w.saves.length with e3 | u <;>
    · simp only [DefaultSyncService.pushFallback, doFetch, doNowIso, doSave,
        DefaultSyncService.syncFailureResult, doNowMs, hf2, hsv] at hp
      rcases List.mem_append.mp hp with h | h
      · exact Or.inl h
      · right
        simp only [List.mem_singleton] at h
        subst h
        rfl

/-- Every save `sync` performs carries `synced: true`. -/
theorem sync_saves_synced {σ ρ : Type} [DecidableEq σ] [DecidableEq ρ]
    (opts : ResolvedSyncOptions) (env : Env σ ρ) (S : RemoteSnapshot σ ρ)
    (w : World σ ρ) (p : RemoteSnapshot σ ρ × LocalSaveOptions)
    (hp : p ∈ (DefaultSyncService.sync opts env S w).2.saves) :
    p ∈ w.saves ∨ p.2.synced = true := by
  rcases hf : env.fetchResults w.fetchCount with e | R
  · simp only [DefaultSyncService.sync, doNowMs, doFetch,
      DefaultSyncService.syncFailureResult, hf] at hp
    exact Or.inl hp
  · by_cases hcid : R.commitId = S.commitId
    · rcases hwrr : DefaultSyncService.withRetry opts
        (doPush env S.commitId
          { schemas := S.schemas, records := S.records, meta := S.meta }) 1
        { w with msCount := w.msCount + 1, fetchCount := w.fetchCount + 1 }
        with ⟨r, w3⟩
      have hpres := withRetry_doPush_preserves opts env S.commitId
        { schemas := S.schemas, records := S.records, meta := S.meta } 1
        { w with msCount := w.msCount + 1, fetchCount := w.fetchCount + 1 }
      rw [hwrr] at hpres
      have hsv3 : w3.saves = w.saves := by simpa using hpres.1
      simp only [DefaultSyncService.sync, doNowMs, doFetch, doNowIso, doSave,
        DefaultSyncService.syncFailureResult, hf, hcid, ne_eq, not_true_eq_false,
        if_false, hwrr] at hp
      rcases r with e | v
      · -- push failed after retries: the catch block falls back
        rcases pushFallback_saves_synced env S e _ w3 p hp with h | h
        · rw [hsv3] at h
          exact Or.inl h
        · exact Or.inr h
      · -- push succeeded: save the new snapshot; a failing save is
        -- caught as pushError and the catch block falls back
        simp only [hsv3] at hp
        rcases hsv : env.saveResults w.saves.length with e3 | u
        · simp only [hsv] at hp
          rcases pushFallback_saves_synced env S e3 _ _ p hp with h | h
          · simp only [List.mem_append, List.mem_singleton] at h
            rcases h with h1 | h1
            · exact Or.inl h1
            · right
              subst h1
              rfl
          · exact Or.inr h
        · simp only [hsv] at hp
          rcases List.mem_append.mp hp with h | h
          · exact Or.inl h
          · right
            simp only [List.mem_singleton] at h
            subst h
            rfl
    · -- divergence: reset save
      rcases hsv : env.saveResults w.saves.length with e2 | u <;>
      · simp only [DefaultSyncService.sync, doNowMs, doFetch, doNowIso, doSave,
          DefaultSyncService.syncFailureResult, hf, hcid, ne_eq,
          not_false_eq_true, if_true, hsv] at hp
        rcases List.mem_append.mp hp with h | h
        · exact Or.inl h
        · right
          simp only [List.mem_singleton] at h
          subst h
          rfl

/-- Every save `loadInitial` performs carries `synced: true`. -/
theorem loadInitial_saves_synced {σ ρ : Type} [DecidableEq σ] [DecidableEq ρ]
    (env : Env σ ρ) (w : World σ ρ)
    (p : RemoteSnapshot σ ρ × LocalSaveOptions)
    (hp : p ∈ (DefaultSyncService.loadInitial env w).2.saves) :
    p ∈ w.saves ∨ p.2.synced = true := by
  rcases hi : DefaultSyncService.initResults env with e | u
  · simp only [DefaultSyncService.loadInitial, doNowMs, hi] at hp
    exact Or.inl hp
  · rcases hl : env.loadResult with e | ls
    · simp only [DefaultSyncService.loadInitial, doNowMs, hi, hl] at hp
      exact Or.inl hp
    · rcases hsnap : ls.snapshot with _ | cached
      · rcases hf : env.fetchResults w.fetchCount with e | R
        · simp only [DefaultSyncService.loadInitial, doNowMs, doFetch, hi, hl,
            hsnap, hf] at hp
          exact Or.inl hp
        · rcases hsv : env.saveResults w.saves.length with e2 | u2 <;>
          · simp only [DefaultSyncService.loadInitial, doNowMs, doFetch, doNowIso,
              doSave, hi, hl, hsnap, hf, hsv] at hp
            rcases List.mem_append.mp hp with h | h
            · exact Or.inl h
            · right
              simp only [List.mem_singleton] at h
              subst h
              rfl
      · rcases hf : env.fetchResults w.fetchCount with e | R
        · simp only [DefaultSyncService.loadInitial, doNowMs, doFetch, hi, hl,
            hsnap, hf] at hp
          exact Or.inl hp
        · by_cases hcid : R.commitId = cached.commitId
          · simp only [DefaultSyncService.loadInitial, doNowMs, doFetch, hi, hl,
              hsnap, hf, hcid, ne_eq, not_true_eq_false, if_false] at hp
            exact Or.inl hp
          · rcases hsv : env.saveResults w.saves.length with e2 | u2 <;>
            · simp only [DefaultSyncService.loadInitial, doNowMs, doFetch,
                doNowIso, doSave, hi, hl, hsnap, hf, hcid, ne_eq,
                not_false_eq_true, if_true, hsv] at hp
              rcases List.mem_append.mp hp with h | h
              · exact Or.inl h
              · right
                simp only [List.mem_singleton] at h
                subst h
                rfl

/-- C10: every save the orchestrator performs — in both paths of
`loadInitial` that save, and in the divergence-reset, push-success and
push-failure-reset paths of `sync` — passes `synced: true`; hence after
any orchestrator-performed save a conforming cache loads with
`hasUnsyncedChanges = false`. -/
theorem orchestrator_saves_always_synced {σ ρ : Type} [DecidableEq σ] [DecidableEq ρ] :
    (∀ (opts : ResolvedSyncOptions) (env : Env σ ρ) (S : RemoteSnapshot σ ρ)
      (w : World σ ρ) (p : RemoteSnapshot σ ρ × LocalSaveOptions),
      p ∈ (DefaultSyncService.sync opts env S w).2.saves →
      p ∈ w.saves ∨ p.2.synced = true) ∧
    (∀ (env : Env σ ρ) (w : World σ ρ)
      (p : RemoteSnapshot σ ρ × LocalSaveOptions),
      p ∈ (DefaultSyncService.loadInitial env w).2.saves →
      p ∈ w.saves ∨ p.2.synced = true) ∧
    (∀ (opts : ResolvedSyncOptions) (env : Env σ ρ) (S : RemoteSnapshot σ ρ)
      (ls : LocalState σ ρ),
      (DefaultSyncService.sync opts env S (World.initial σ ρ)).2.saves ≠ [] →
      (cacheStateAfter ls
        (DefaultSyncService.sync opts env S (World.initial σ ρ)).2.saves).hasUnsyncedChanges
        = false) ∧
    (∀ (env : Env σ ρ) (ls : LocalState σ ρ),
      (DefaultSyncService.loadInitial env (World.initial σ ρ)).2.saves ≠ [] →
      (cacheStateAfter ls
        (DefaultSyncService.loadInitial env (World.initial σ ρ)).2.saves).hasUnsyncedChanges
        = false) := by
  refine ⟨sync_saves_synced, loadInitial_saves_synced, ?_, ?_⟩
  · intro opts env S ls hne
    have hget := List.getLast?_eq_getLast_of_ne_nil hne
    have hmem := List.getLast_mem hne
    rcases sync_saves_synced opts env S (World.initial σ ρ) _ hmem with h | h
    · simp [World.initial] at h
    · rcases hpair : ((DefaultSyncService.sync opts env S
          (World.initial σ ρ)).2.saves).getLast hne with ⟨s, o⟩
      rw [hpair] at hget h
      simp only at h
      simp [cacheStateAfter, hget, h]
  · intro env ls hne
    have hget := List.getLast?_eq_getLast_of_ne_nil hne
    have hmem := List.getLast_mem hne
    rcases loadInitial_saves_synced env (World.initial σ ρ) _ hmem with h | h
    · simp [World.initial] at h
    · rcases hpair : ((DefaultSyncService.loadInitial env
          (World.initial σ ρ)).2.saves).getLast hne with ⟨s, o⟩
      rw [hpair] at hget h
      simp only at h
      simp [cacheStateAfter, hget, h]

/-- Witness for C10 on concrete runs of `sync` and `loadInitial` that
each perform one save. -/
theorem orchestrator_saves_always_synced_witness :
    ((snapB, ({ synced := true
                meta := some { savedAt := some "2024-01-01T00:00:00Z"
                               reason := some SaveReason.reset } } :
        LocalSaveOptions)) ∈
      (DefaultSyncService.sync optsDefault envDiverged snapA
        (World.initial Nat Nat)).2.saves) ∧
    ((snapB, ({ synced := true
                meta := some { savedAt := some "2024-01-01T00:00:00Z"
                               reason := some SaveReason.reset } } :
        LocalSaveOptions)) ∈ (World.initial Nat Nat).saves ∨
      (({ synced := true
          meta := some { savedAt := some "2024-01-01T00:00:00Z"
                         reason := some SaveReason.reset } } :
        LocalSaveOptions)).synced = true) ∧
    ((DefaultSyncService.sync optsDefault envDiverged snapA
      (World.initial Nat Nat)).2.saves ≠ []) ∧
    ((cacheStateAfter { snapshot := none, hasUnsyncedChanges := true }
      (DefaultSyncService.sync optsDefault envDiverged snapA
        (World.initial Nat Nat)).2.saves).hasUnsyncedChanges = false) ∧
    ((DefaultSyncService.loadInitial envDiverged
      (World.initial Nat Nat)).2.saves ≠ []) ∧
    ((cacheStateAfter { snapshot := none, hasUnsyncedChanges := true }
      (DefaultSyncService.loadInitial envDiverged
        (World.initial Nat Nat)).2.saves).hasUnsyncedChanges = false) :=
  ⟨by decide,
   orchestrator_saves_always_synced.1 optsDefault envDiverged snapA
     (World.initial Nat Nat) _ (by decide),
   by decide,
   orchestrator_saves_always_synced.2.2.1 optsDefault envDiverged snapA
     { snapshot := none, hasUnsyncedChanges := true } (by decide),
   by decide,
   orchestrator_saves_always_synced.2.2.2 envDiverged
     { snapshot := none, hasUnsyncedChanges := true } (by decide)⟩
